import Mathlib

/-
  Verification of the investpy certificates module (investpy/certificates.py).

  The definitions below are a shallow embedding of the two data-retrieval
  functions of that file, get_certificate_recent_data and
  get_certificate_historical_data, together with the argument validation,
  the catalog name resolution, the date-range partitioning loop, the
  per-window row processing and the final emission of the assembled series.

  Machine-level aspects that are not representable (Python dynamic type
  checks, the pandas DataFrame layout, IEEE-754 rounding of float(), the
  local timezone of datetime.fromtimestamp) are modelled by exact
  counterparts: rationals for parsed numbers, UTC civil-date conversion
  for timestamps.  Provider responses are explicit values handed to the
  functions, one per issued request, so that the network loop becomes a
  pure fold over the response list.
-/

set_option autoImplicit false

deriving instance DecidableEq for Except

namespace Investpy

/-! ## Dates -/

/-- A Python datetime reduced to its calendar components, as the module only
ever reads and replaces year, month and day. -/
structure PyDate where
  year : Nat
  month : Nat
  day : Nat
deriving DecidableEq, Repr, Inhabited

/-- The field update performed by a successful datetime.replace(year=y):
only the year changes.  datetime.replace also validates the resulting
date and raises ValueError when the day is out of range for the month in
the new year (Feb 29 moved to a non-leap year); that check is modelled by
pyReplaceYear below, and splitIntervalsChecked is the partition loop with
the check included. -/
def replaceYear (d : PyDate) (y : Nat) : PyDate :=
  ⟨y, d.month, d.day⟩

/-- Calendar order on dates (lexicographic on year, month, day). -/
def dateLt (a b : PyDate) : Prop :=
  a.year < b.year ∨ (a.year = b.year ∧
    (a.month < b.month ∨ (a.month = b.month ∧ a.day < b.day)))

/-- Reflexive calendar order on dates. -/
def dateLe (a b : PyDate) : Prop :=
  a.year < b.year ∨ (a.year = b.year ∧
    (a.month < b.month ∨ (a.month = b.month ∧ a.day ≤ b.day)))

instance (a b : PyDate) : Decidable (dateLt a b) := by
  unfold dateLt; exact inferInstance

instance (a b : PyDate) : Decidable (dateLe a b) := by
  unfold dateLe; exact inferInstance

/-! ## The date-range partitioner

get_certificate_historical_data lines 459-483: a while loop that, while the
year difference to the end date exceeds 20, emits a window of exactly 20
years (datetime.replace(year=year+20)) and advances the cursor, and
otherwise emits the final window up to the end date and stops. -/

/-- The while loop of lines 459-483 of certificates.py, with every
datetime.replace call assumed to succeed (splitIntervalsChecked below is
the same loop with replace's validity check, and splitIntervalsChecked_eq
proves the two agree whenever no replace call fails).  Each produced pair
is one entry of date_interval['intervals'] (start, end). -/
def splitIntervals (s e : PyDate) : List (PyDate × PyDate) :=
  if h : e.year - s.year > 20 then
    (s, replaceYear s (s.year + 20)) ::
      splitIntervals (replaceYear s (s.year + 20)) e
  else
    [(s, e)]
termination_by e.year - s.year
decreasing_by
  simp [replaceYear]
  omega

/-! ## String normalization (catalog lookup) -/

/-- Python str.lower restricted to the characters this development uses:
ASCII letters and the accented Latin letters appearing in catalog names. -/
def pyLower (c : Char) : Char :=
  if 'A' ≤ c ∧ c ≤ 'Z' then Char.ofNat (c.toNat + 32)
  else if c = 'É' then 'é' else if c = 'È' then 'è'
  else if c = 'Ê' then 'ê' else if c = 'Ë' then 'ë'
  else if c = 'À' then 'à' else if c = 'Â' then 'â'
  else if c = 'Ä' then 'ä' else if c = 'Á' then 'á'
  else if c = 'Ç' then 'ç' else if c = 'Ñ' then 'ñ'
  else if c = 'Í' then 'í' else if c = 'Ó' then 'ó'
  else if c = 'Ö' then 'ö' else if c = 'Ú' then 'ú'
  else if c = 'Ü' then 'ü'
  else c

/-- Lowercasing a string, Python s.lower(). -/
def lowerStr (s : String) : String :=
  String.mk (s.data.map pyLower)

/-- Modelled from the spec: the diacritic-stripping collaborator
(unidecode.unidecode, an external library not part of this repository).
The spec describes it as "strip diacritics"; accented Latin letters map to
their ASCII base letter, every other character is unchanged. -/
def udChar (c : Char) : Char :=
  if c = 'é' ∨ c = 'è' ∨ c = 'ê' ∨ c = 'ë' then 'e'
  else if c = 'à' ∨ c = 'â' ∨ c = 'ä' ∨ c = 'á' then 'a'
  else if c = 'ç' then 'c' else if c = 'ñ' then 'n'
  else if c = 'í' then 'i'
  else if c = 'ó' ∨ c = 'ö' then 'o'
  else if c = 'ú' ∨ c = 'ü' then 'u'
  else if c = 'É' ∨ c = 'È' ∨ c = 'Ê' ∨ c = 'Ë' then 'E'
  else if c = 'À' ∨ c = 'Â' ∨ c = 'Ä' ∨ c = 'Á' then 'A'
  else if c = 'Ç' then 'C' else if c = 'Ñ' then 'N'
  else if c = 'Í' then 'I'
  else if c = 'Ó' ∨ c = 'Ö' then 'O'
  else if c = 'Ú' ∨ c = 'Ü' then 'U'
  else c

/-- Modelled from the spec: unidecode.unidecode on a whole string. -/
def unidecodeStr (s : String) : String :=
  String.mk (s.data.map udChar)

/-- Whitespace recognized by Python str.strip (restricted to the common
whitespace characters). -/
def isPySpace (c : Char) : Bool :=
  c = ' ' ∨ c = '\t' ∨ c = '\n' ∨ c = '\r'

/-- Python str.strip(): drop leading and trailing whitespace. -/
def stripStr (s : String) : String :=
  String.mk (((s.data.dropWhile isPySpace).reverse.dropWhile isPySpace).reverse)

/-! ## Numeric and date parsing -/

/-- Split a character list at every occurrence of the separator (the
behavior of Python str.split with a one-character separator). -/
def splitOnChar (sep : Char) : List Char → List (List Char)
  | [] => [[]]
  | c :: rest =>
      match splitOnChar sep rest with
      | [] => if c = sep then [[], []] else [[c]]
      | g :: gs => if c = sep then [] :: g :: gs else (c :: g) :: gs

/-- All characters are ASCII digits. -/
def allDigitsL (cs : List Char) : Bool :=
  cs.all (fun c => c.isDigit)

/-- Value of a digit sequence (most significant first). -/
def digitsVal (cs : List Char) : Nat :=
  cs.foldl (fun a c => a * 10 + (c.toNat - 48)) 0

/-- Python int(s) on the plain nonnegative digit strings that the provider
uses for Unix timestamps. -/
def parsePyInt (s : String) : Option Nat :=
  if s.data ≠ [] ∧ allDigitsL s.data then some (digitsVal s.data) else none

/-- Python float(s) on unsigned decimal literals such as 1234 or 1234.5,
with the exact rational value of the literal standing in for the IEEE-754
double. -/
def parseFloat (s : String) : Option ℚ :=
  match splitOnChar '.' s.data with
  | [ip] =>
      if ip ≠ [] ∧ allDigitsL ip then some ((digitsVal ip : ℚ)) else none
  | [ip, fp] =>
      if (ip ≠ [] ∨ fp ≠ []) ∧ allDigitsL ip ∧ allDigitsL fp then
        some (mkRat (digitsVal ip * 10 ^ fp.length + digitsVal fp) (10 ^ fp.length))
      else none
  | _ => none

/-- Python s.replace with the empty replacement: every comma is removed
(thousands separators, lines 573-576 and 315-318 of certificates.py). -/
def stripCommas (s : String) : String :=
  String.mk (s.data.filter (fun c => c ≠ ','))

/-- Gregorian leap year. -/
def isLeap (y : Nat) : Bool :=
  (y % 4 = 0 ∧ y % 100 ≠ 0) ∨ y % 400 = 0

/-- Days in a month of the proleptic Gregorian calendar. -/
def daysInMonth (y m : Nat) : Nat :=
  if m = 2 then (if isLeap y then 29 else 28)
  else if m = 4 ∨ m = 6 ∨ m = 9 ∨ m = 11 then 30
  else 31

/-- datetime.replace(year=y) including the constructor's validation: the
result must be a real calendar date, so replacing the year of Feb 29 with
a non-leap year raises ValueError, modelled as none. -/
def pyReplaceYear (d : PyDate) (y : Nat) : Option PyDate :=
  if 1 ≤ d.month ∧ d.month ≤ 12 ∧ 1 ≤ d.day ∧ d.day ≤ daysInMonth y d.month then
    some ⟨y, d.month, d.day⟩
  else none

/-- The while loop of lines 459-483 including the validity check that
datetime.replace performs on each 20-year cursor advance: none models the
ValueError escaping the loop, some the completed partition. -/
def splitIntervalsChecked (s e : PyDate) : Option (List (PyDate × PyDate)) :=
  if h : e.year - s.year > 20 then
    match h2 : pyReplaceYear s (s.year + 20) with
    | none => none
    | some m =>
        match splitIntervalsChecked m e with
        | none => none
        | some rest => some ((s, m) :: rest)
  else
    some [(s, e)]
termination_by e.year - s.year
decreasing_by
  simp only [pyReplaceYear] at h2
  split at h2
  · injection h2 with h3
    rw [← h3]
    simp
    omega
  · exact Option.noConfusion h2

/-- datetime.strptime(s, the dd/mm/yyyy format): three slash-separated
fields, day and month of one or two digits, four-digit year, and the
combination must be a real calendar date. -/
def parseDMY (s : String) : Option PyDate :=
  match splitOnChar '/' s.data with
  | [d, m, y] =>
      if allDigitsL d ∧ allDigitsL m ∧ allDigitsL y ∧
          (d.length = 1 ∨ d.length = 2) ∧ (m.length = 1 ∨ m.length = 2) ∧
          y.length = 4 then
        let dn := digitsVal d
        let mn := digitsVal m
        let yn := digitsVal y
        if 1 ≤ mn ∧ mn ≤ 12 ∧ 1 ≤ dn ∧ dn ≤ daysInMonth yn mn then
          some ⟨yn, mn, dn⟩
        else none
      else none
  | _ => none

/-- datetime.fromtimestamp(ts).date() with the timezone fixed to UTC:
civil date of day number ts / 86400 counted from 1970-01-01 (the standard
era-based conversion). -/
def civilFromDays (z : Nat) : PyDate :=
  let z1 := z + 719468
  let era := z1 / 146097
  let doe := z1 % 146097
  let yoe := (doe - doe / 1460 + doe / 36524 - doe / 146096) / 365
  let y := yoe + era * 400
  let doy := doe - (365 * yoe + yoe / 4 - yoe / 100)
  let mp := (5 * doy + 2) / 153
  let d := doy - (153 * mp + 2) / 5 + 1
  let m := if mp < 10 then mp + 3 else mp - 9
  ⟨if m ≤ 2 then y + 1 else y, m, d⟩

/-! ## Data model of responses, rows and price records -/

/-- One parsed OHLC record; fields are assigned exactly as in lines 571-579
of certificates.py (constructor argument order date, open, high, low,
close mirrors the Data(...) construction). -/
structure PricePoint where
  date : PyDate
  open_ : ℚ
  high : ℚ
  low : ℚ
  close : ℚ
deriving DecidableEq, Repr

/-- One tr element of the curr_table body: the text content of its first td
(used for the "No results found" test) and the data-real-value attributes
of its td elements in document order. -/
structure TableRow where
  firstCellText : String
  realValues : List String
deriving DecidableEq, Repr

/-- Line 557 and line 305: the first cell text equals the literal marker. -/
def isNoResults (r : TableRow) : Bool :=
  r.firstCellText == "No results found"

/-- Body of an HTTP 200 response: either an empty text (historical fetch
skips the window, lines 547-548) or an HTML document whose curr_table rows
are the given list (possibly empty, in which case the xpath result is
empty and line 602 raises). -/
inductive RespBody where
  | empty
  | html (rows : List TableRow)
deriving DecidableEq, Repr

/-- A provider response: status code plus body. -/
structure HttpResponse where
  status_code : Nat
  text : RespBody
deriving DecidableEq, Repr

/-- Requested ordering after validation has mapped the four accepted
strings to the two behaviors of lines 581-585 / 323-326. -/
inductive SortOrder where
  | ascending
  | descending
deriving DecidableEq, Repr

/-- The exceptions the fetch phase can raise.

connectionError: ConnectionError ERR#0015, carrying the status code;
noHistoricalData: IndexError ERR#0102;
scrapeError: RuntimeError ERR#0004 (no curr_table rows);
parseError: an exception escaping the cell parsing (malformed
data-real-value, or lxml fromstring on the empty recent body);
emptyFinalIndex: the IndexError of final[0] on an empty final list
(line 605); emptyConcat: the ValueError of pd.concat on an empty list
(line 607). -/
inductive FetchErr where
  | connectionError (status : Nat)
  | noHistoricalData
  | scrapeError
  | parseError
  | emptyFinalIndex
  | emptyConcat
deriving DecidableEq, Repr

/-- The value returned to the caller: the json document of lines 587-594 /
328-335 (name plus serialized series) or the concatenated DataFrame of
lines 596-607 / 336-340, both reduced to the series they carry. -/
inductive Output where
  | jsonOut (name : String) (series : List PricePoint)
  | tableOut (series : List PricePoint)
deriving DecidableEq, Repr

/-! ## Row parsing -/

/-- Lines 565-579 (and 308-321): info is the list of data-real-value
attributes of the row; cell 0 is a Unix timestamp converted to a calendar
date, cell 1 the close, cell 2 the open, cell 3 the high, cell 4 the low,
each with commas stripped before float().  A missing cell or a value that
does not parse is the exception path (none). -/
def parseRow (info : List String) : Option PricePoint :=
  match info with
  | ts :: c1 :: c2 :: c3 :: c4 :: _ =>
      match parsePyInt ts, parseFloat (stripCommas c1), parseFloat (stripCommas c2),
          parseFloat (stripCommas c3), parseFloat (stripCommas c4) with
      | some t, some cq, some oq, some hq, some lq =>
          some ⟨civilFromDays (t / 86400), oq, hq, lq, cq⟩
      | _, _, _, _, _ => none
  | _ => none

/-! ## Historical fetch: per-window row loop -/

/-- The row loop of lines 556-579.  The pair carried through is
(data_flag, result): a "No results found" row raises IndexError on the
last window and sets data_flag to False otherwise; any other row sets
data_flag to True and is parsed and appended.  The incoming data_flag of
a row is never read because every row assigns it before the append test. -/
def processRows (isLast : Bool) : List TableRow → Bool → List PricePoint →
    Except FetchErr (Bool × List PricePoint)
  | [], flag, acc => .ok (flag, acc)
  | r :: rest, _, acc =>
      if isNoResults r then
        if isLast then .error .noHistoricalData
        else processRows isLast rest false acc
      else
        match parseRow r.realValues with
        | some p => processRows isLast rest true (acc ++ [p])
        | none => .error .parseError

/-- Lines 555-599 for one window: no rows at all is the RuntimeError of
line 602; otherwise the row loop runs and, if the final data_flag is True,
the window contributes its result with the order adjustment of lines
581-585 applied (ascending reverses the provider's newest-first rows),
and contributes nothing when the final data_flag is False. -/
def processWindow (isLast : Bool) (order : SortOrder) (rows : List TableRow) :
    Except FetchErr (Option (List PricePoint)) :=
  match rows with
  | [] => .error .scrapeError
  | _ :: _ =>
      match processRows isLast rows false [] with
      | .error e => .error e
      | .ok (flag, result) =>
          if flag then
            .ok (some (if order = .ascending then result.reverse else result))
          else .ok none

/-- The window loop of lines 517-602: one response per interval, processed
in sequence.  interval_counter is incremented at the top of each
iteration and the last window is the one where it reaches interval_limit.
A non-200 status raises ConnectionError at once; an empty body skips the
window; otherwise the window is processed and its contribution (if any)
appended to final. -/
def runWindows (order : SortOrder) (limit : Nat) :
    Nat → List HttpResponse → Except FetchErr (List (List PricePoint))
  | _, [] => .ok []
  | counter, r :: rest =>
      if r.status_code ≠ 200 then .error (.connectionError r.status_code)
      else
        match r.text with
        | .empty => runWindows order limit (counter + 1) rest
        | .html rows =>
            match processWindow (counter + 1 == limit) order rows with
            | .error e => .error e
            | .ok contribution =>
                match runWindows order limit (counter + 1) rest with
                | .error e => .error e
                | .ok finals =>
                    match contribution with
                    | some w => .ok (w :: finals)
                    | none => .ok finals

/-- The fetch-and-emit phase of get_certificate_historical_data given the
responses of the provider (one per window).  Lines 604-607: with
as_json=True the function returns json.dumps(final[0]) - only the first
accumulated window - and with as_json=False it returns pd.concat(final);
both raise on an empty final list. -/
def get_historical_core (as_json : Bool) (name : String) (order : SortOrder)
    (responses : List HttpResponse) : Except FetchErr Output :=
  match runWindows order responses.length 0 responses with
  | .error e => .error e
  | .ok final =>
      if as_json then
        match final with
        | [] => .error .emptyFinalIndex
        | w :: _ => .ok (.jsonOut name w)
      else
        match final with
        | [] => .error .emptyConcat
        | _ :: _ => .ok (.tableOut final.flatten)

/-! ## Recent fetch -/

/-- The row loop of lines 304-321: any "No results found" row raises
IndexError immediately; every other row is parsed and appended. -/
def recentRows : List TableRow → List PricePoint → Except FetchErr (List PricePoint)
  | [], acc => .ok acc
  | r :: rest, acc =>
      if isNoResults r then .error .noHistoricalData
      else
        match parseRow r.realValues with
        | some p => recentRows rest (acc ++ [p])
        | none => .error .parseError

/-- The fetch-and-emit phase of get_certificate_recent_data (lines
293-342): single request, ConnectionError on non-200 status, an empty
body fails in lxml fromstring, no table rows is the RuntimeError of line
342, then the order adjustment of lines 323-326 and emission of the whole
result in either mode. -/
def get_recent_core (as_json : Bool) (name : String) (order : SortOrder)
    (resp : HttpResponse) : Except FetchErr Output :=
  if resp.status_code ≠ 200 then .error (.connectionError resp.status_code)
  else
    match resp.text with
    | .empty => .error .parseError
    | .html rows =>
        match rows with
        | [] => .error .scrapeError
        | _ :: _ =>
            match recentRows rows [] with
            | .error e => .error e
            | .ok result =>
                let adjusted := if order = .ascending then result.reverse else result
                .ok (if as_json then .jsonOut name adjusted else .tableOut adjusted)

/-! ## Catalog and name resolution -/

/-- One row of the certificates.csv catalog, reduced to the columns the
fetch functions read (country, name, symbol, id). -/
structure CatalogRow where
  country : String
  name : String
  symbol : String
  id : Nat
deriving DecidableEq, Repr, Inhabited

/-- Errors of the whole call: argument validation (the ValueError codes of
lines 412-453 / 219-244), the two RuntimeError lookups of lines 498-507 /
256-265, and the fetch-phase exceptions. -/
inductive ValErr where
  | err0100
  | err0039
  | err0003
  | err0073
  | err0011
  | err0012
  | err0032
deriving DecidableEq, Repr

/-- Classification of a whole-call error. -/
inductive Err where
  | validation (v : ValErr)
  | countryNotFound
  | certificateNotFound
  | fetch (e : FetchErr)
deriving DecidableEq, Repr

/-- Errors raised before the first HTTP request is issued. -/
def Err.isPreNetwork : Err → Bool
  | .fetch _ => false
  | _ => true

/-- Lines 498-511 (identically 256-269): country membership against the
countries listing, filtering the catalog to the country, accent- and
case-insensitive membership test of the queried name, then row selection
by the pandas expression (name.str.lower() == certificate).idxmax().
idxmax of a boolean column yields the first True row, and the first row
of the filtered frame when no entry is True. -/
def resolve (countries : List String) (catalog : List CatalogRow)
    (certificate country : String) : Except Err CatalogRow :=
  let ctryN := unidecodeStr (lowerStr country)
  if ctryN ∉ countries then .error .countryNotFound
  else
    let certs := catalog.filter (fun row => row.country == ctryN)
    let cert := lowerStr (stripStr certificate)
    if unidecodeStr cert ∈ certs.map (fun row => unidecodeStr (lowerStr row.name)) then
      match certs.find? (fun row => lowerStr row.name == cert) with
      | some row => .ok row
      | none =>
          match certs with
          | row :: _ => .ok row
          | [] => .error .certificateNotFound
    else .error .certificateNotFound

/-! ## Argument validation and the full calls -/

/-- Lines 412-453: the validation sequence of
get_certificate_historical_data, in source order.  The isinstance checks
have no counterpart over typed arguments; country is an Option to model
the None check of line 418. -/
def validateHistoricalArgs (certificate : String) (country : Option String)
    (order : String) (interval : String) (from_date to_date : String) :
    Except Err (String × PyDate × PyDate) :=
  if certificate = "" then .error (.validation .err0100)
  else
    match country with
    | none => .error (.validation .err0039)
    | some ctry =>
        if ¬ (order = "ascending" ∨ order = "asc" ∨ order = "descending" ∨ order = "desc") then
          .error (.validation .err0003)
        else if interval = "" then .error (.validation .err0073)
        else if ¬ (interval = "Daily" ∨ interval = "Weekly" ∨ interval = "Monthly") then
          .error (.validation .err0073)
        else
          match parseDMY from_date with
          | none => .error (.validation .err0011)
          | some start1 =>
              match parseDMY to_date with
              | none => .error (.validation .err0012)
              | some end1 =>
                  if ¬ dateLt start1 end1 then .error (.validation .err0032)
                  else .ok (ctry, start1, end1)

/-- Lines 219-244: the validation sequence of get_certificate_recent_data
(no date arguments). -/
def validateRecentArgs (certificate : String) (country : Option String)
    (order : String) (interval : String) : Except Err String :=
  if certificate = "" then .error (.validation .err0100)
  else
    match country with
    | none => .error (.validation .err0039)
    | some ctry =>
        if ¬ (order = "ascending" ∨ order = "asc" ∨ order = "descending" ∨ order = "desc") then
          .error (.validation .err0003)
        else if interval = "" then .error (.validation .err0073)
        else if ¬ (interval = "Daily" ∨ interval = "Weekly" ∨ interval = "Monthly") then
          .error (.validation .err0073)
        else .ok ctry

/-- Lines 581-585 / 323-326 applied to the already validated order string. -/
def orderOf (order : String) : SortOrder :=
  if order = "ascending" ∨ order = "asc" then .ascending else .descending

/-- get_certificate_historical_data as a whole: validate, build the
intervals, resolve the certificate against the catalog, then run one
request per interval against the provider (modelled as the function from
request index to response) and emit. -/
def get_certificate_historical_data (certificate : String) (country : Option String)
    (from_date to_date : String) (as_json : Bool) (order : String) (interval : String)
    (countries : List String) (catalog : List CatalogRow)
    (provider : Nat → HttpResponse) : Except Err Output :=
  match validateHistoricalArgs certificate country order interval from_date to_date with
  | .error e => .error e
  | .ok (ctry, start1, end1) =>
      match resolve countries catalog certificate ctry with
      | .error e => .error e
      | .ok row =>
          match get_historical_core as_json row.name (orderOf order)
              ((List.range (splitIntervals start1 end1).length).map provider) with
          | .error e => .error (.fetch e)
          | .ok out => .ok out

/-- get_certificate_recent_data as a whole: validate, resolve, then the
single request and emission. -/
def get_certificate_recent_data (certificate : String) (country : Option String)
    (as_json : Bool) (order : String) (interval : String)
    (countries : List String) (catalog : List CatalogRow)
    (resp : HttpResponse) : Except Err Output :=
  match validateRecentArgs certificate country order interval with
  | .error e => .error e
  | .ok ctry =>
      match resolve countries catalog certificate ctry with
      | .error e => .error e
      | .ok row =>
          match get_recent_core as_json row.name (orderOf order) resp with
          | .error e => .error (.fetch e)
          | .ok out => .ok out

/-! ## Reversal of an emitted output (used to state the ordering claim) -/

/-- Reverse the series an output carries, leaving the mode and name. -/
def revOutput : Output → Output
  | .jsonOut n l => .jsonOut n l.reverse
  | .tableOut l => .tableOut l.reverse

/-! ## Concrete sample data used by counterexamples and witnesses -/

/-- A data row: timestamp 86400 (1970-01-02 UTC), close 1, open 2, high 3,
low 4. -/
def drow1 : TableRow := ⟨"x", ["86400", "1", "2", "3", "4"]⟩

/-- A data row: timestamp 172800 (1970-01-03 UTC), close 5.5, open 6,
high 7, low 5,000 (with a thousands separator). -/
def drow2 : TableRow := ⟨"x", ["172800", "5.5", "6", "7", "5,000"]⟩

/-- The "No results found" marker row. -/
def nrow : TableRow := ⟨"No results found", []⟩

/-- The record parsed from drow1. -/
def pp1 : PricePoint := ⟨⟨1970, 1, 2⟩, 2, 3, 4, 1⟩

/-- The record parsed from drow2. -/
def pp2 : PricePoint := ⟨⟨1970, 1, 3⟩, 6, 7, 5000, mkRat 11 2⟩

/-- Two successful single-row windows. -/
def rs2 : List HttpResponse :=
  [⟨200, .html [drow1]⟩, ⟨200, .html [drow2]⟩]

/-- A catalog row without accents, listed first in its country. -/
def rowOC : CatalogRow := ⟨"france", "Other Cert", "OC1", 1⟩

/-- A catalog row whose name carries accents, listed second. -/
def rowSX : CatalogRow := ⟨"france", "Société X", "SX1", 2⟩

/-- A two-row catalog for one country. -/
def catalogEx : List CatalogRow := [rowOC, rowSX]

/-! # Theorems -/

/-! ## Order lemmas for calendar dates -/

theorem dateLe_refl (a : PyDate) : dateLe a a := by
  unfold dateLe; omega

theorem dateLe_trans {a b c : PyDate} (h1 : dateLe a b) (h2 : dateLe b c) :
    dateLe a c := by
  unfold dateLe at h1 h2 ⊢; omega

theorem dateLe_total (a b : PyDate) : dateLe a b ∨ dateLe b a := by
  unfold dateLe; omega

/-! ## Structure of the partitioned date range -/

theorem splitIntervals_start_le (s e : PyDate) :
    ∀ p ∈ splitIntervals s e, dateLe s p.1 := by
  induction s, e using splitIntervals.induct with
  | case1 s e h ih =>
      rw [splitIntervals, dif_pos h]
      intro p hp
      rcases List.mem_cons.mp hp with h1 | h1
      · subst h1; exact dateLe_refl s
      · refine dateLe_trans ?_ (ih p h1)
        simp only [dateLe, replaceYear]; omega
  | case2 s e h =>
      rw [splitIntervals, dif_neg h]
      intro p hp
      rcases List.mem_cons.mp hp with h1 | h1
      · subst h1; exact dateLe_refl s
      · simp at h1

theorem splitIntervals_head (s e : PyDate) :
    (splitIntervals s e).head?.map Prod.fst = some s := by
  induction s, e using splitIntervals.induct with
  | case1 s e h ih => rw [splitIntervals, dif_pos h]; rfl
  | case2 s e h => rw [splitIntervals, dif_neg h]; rfl

theorem splitIntervals_last (s e : PyDate) :
    ((splitIntervals s e).getLast?).map Prod.snd = some e := by
  induction s, e using splitIntervals.induct with
  | case1 s e h ih =>
      rw [splitIntervals, dif_pos h]
      cases hrest : splitIntervals (replaceYear s (s.year + 20)) e with
      | nil => rw [hrest] at ih; simp at ih
      | cons q t =>
          rw [hrest] at ih
          rw [List.getLast?_cons_cons]
          exact ih
  | case2 s e h => rw [splitIntervals, dif_neg h]; rfl

theorem splitIntervals_chain (s e : PyDate) :
    List.Chain' (fun p q => p.2 = q.1) (splitIntervals s e) := by
  induction s, e using splitIntervals.induct with
  | case1 s e h ih =>
      rw [splitIntervals, dif_pos h]
      rw [List.chain'_cons']
      refine ⟨?_, ih⟩
      intro q hq
      have hh := splitIntervals_head (replaceYear s (s.year + 20)) e
      rw [hq] at hh
      simpa using hh.symm
  | case2 s e h =>
      rw [splitIntervals, dif_neg h]
      simp

theorem splitIntervals_year_bound (s e : PyDate) :
    ∀ p ∈ splitIntervals s e, p.2.year - p.1.year ≤ 20 := by
  induction s, e using splitIntervals.induct with
  | case1 s e h ih =>
      rw [splitIntervals, dif_pos h]
      intro p hp
      rcases List.mem_cons.mp hp with h1 | h1
      · subst h1; simp [replaceYear]
      · exact ih p h1
  | case2 s e h =>
      rw [splitIntervals, dif_neg h]
      intro p hp
      rcases List.mem_cons.mp hp with h1 | h1
      · subst h1; dsimp only; omega
      · simp at h1

theorem splitIntervals_proper (s e : PyDate) (hse : dateLt s e) :
    ∀ p ∈ splitIntervals s e, dateLt p.1 p.2 := by
  induction s, e using splitIntervals.induct with
  | case1 s e h ih =>
      rw [splitIntervals, dif_pos h]
      intro p hp
      rcases List.mem_cons.mp hp with h1 | h1
      · subst h1; simp only [dateLt, replaceYear]; omega
      · refine ih ?_ p h1
        simp only [dateLt, replaceYear]; omega
  | case2 s e h =>
      rw [splitIntervals, dif_neg h]
      intro p hp
      rcases List.mem_cons.mp hp with h1 | h1
      · subst h1; exact hse
      · simp at h1

theorem splitIntervals_pairwise (s e : PyDate) :
    List.Pairwise (fun p q => dateLe p.2 q.1) (splitIntervals s e) := by
  induction s, e using splitIntervals.induct with
  | case1 s e h ih =>
      rw [splitIntervals, dif_pos h]
      refine List.Pairwise.cons ?_ ih
      intro q hq
      exact splitIntervals_start_le (replaceYear s (s.year + 20)) e q hq
  | case2 s e h =>
      rw [splitIntervals, dif_neg h]
      simp

theorem splitIntervals_union (s e : PyDate) (d : PyDate) :
    (∃ p ∈ splitIntervals s e, dateLe p.1 d ∧ dateLe d p.2) ↔
      (dateLe s d ∧ dateLe d e) := by
  induction s, e using splitIntervals.induct with
  | case1 s e h ih =>
      rw [splitIntervals, dif_pos h]
      constructor
      · rintro ⟨p, hp, hd1, hd2⟩
        rcases List.mem_cons.mp hp with h1 | h1
        · subst h1
          refine ⟨hd1, ?_⟩
          have hme : dateLe (replaceYear s (s.year + 20)) e := by
            simp only [dateLe, replaceYear]; omega
          exact dateLe_trans hd2 hme
        · have := ih.mp ⟨p, h1, hd1, hd2⟩
          refine ⟨?_, this.2⟩
          refine dateLe_trans ?_ this.1
          simp only [dateLe, replaceYear]; omega
      · rintro ⟨hsd, hde⟩
        rcases dateLe_total d (replaceYear s (s.year + 20)) with hcase | hcase
        · exact ⟨(s, replaceYear s (s.year + 20)), List.mem_cons_self _ _, hsd, hcase⟩
        · obtain ⟨p, hp, hd1, hd2⟩ := ih.mpr ⟨hcase, hde⟩
          exact ⟨p, List.mem_cons_of_mem _ hp, hd1, hd2⟩
  | case2 s e h =>
      rw [splitIntervals, dif_neg h]
      constructor
      · rintro ⟨p, hp, hd1, hd2⟩
        rcases List.mem_cons.mp hp with h1 | h1
        · subst h1; exact ⟨hd1, hd2⟩
        · simp at h1
      · rintro ⟨hsd, hde⟩
        exact ⟨(s, e), List.mem_cons_self _ _, hsd, hde⟩

theorem splitIntervals_length (N : Nat) :
    ∀ (s e : PyDate) (r : Nat), e.year - s.year = 20 * N + r → 0 < r → r ≤ 20 →
      (splitIntervals s e).length = N + 1 := by
  induction N with
  | zero =>
      intro s e r h h1 h2
      rw [splitIntervals, dif_neg (by omega)]
      rfl
  | succ n ih =>
      intro s e r h h1 h2
      rw [splitIntervals, dif_pos (by omega)]
      rw [List.length_cons]
      rw [ih (replaceYear s (s.year + 20)) e r (by simp [replaceYear]; omega) h1 h2]

theorem daysInMonth_any (y1 y2 m d : Nat)
    (h : d ≤ daysInMonth y1 m) (hfeb : m = 2 → d ≤ 28) :
    d ≤ daysInMonth y2 m := by
  unfold daysInMonth at h ⊢
  by_cases hm : m = 2
  · have hd := hfeb hm
    rw [if_pos hm]
    split <;> omega
  · rw [if_neg hm] at h ⊢
    exact h

theorem splitIntervalsChecked_eq (s e : PyDate) :
    1 ≤ s.month → s.month ≤ 12 → 1 ≤ s.day → s.day ≤ daysInMonth s.year s.month →
    (s.month = 2 → s.day ≤ 28) →
    splitIntervalsChecked s e = some (splitIntervals s e) := by
  induction s, e using splitIntervals.induct with
  | case1 s e h ih =>
      intro h1 h2 h3 h4 h5
      have hday : s.day ≤ daysInMonth (s.year + 20) s.month :=
        daysInMonth_any s.year (s.year + 20) s.month s.day h4 h5
      have hrep : pyReplaceYear s (s.year + 20) = some (replaceYear s (s.year + 20)) := by
        unfold pyReplaceYear replaceYear
        rw [if_pos ⟨h1, h2, h3, hday⟩]
      rw [splitIntervalsChecked, dif_pos h, splitIntervals, dif_pos h]
      split
      next heq =>
        rw [hrep] at heq
        exact Option.noConfusion heq
      next m heq =>
        rw [hrep] at heq
        injection heq with hm
        rw [← hm, ih h1 h2 h3 hday h5]
  | case2 s e h =>
      intro h1 h2 h3 h4 h5
      rw [splitIntervalsChecked, dif_neg h, splitIntervals, dif_neg h]

/-- Counterexample to claim C4 as stated: the valid pair from=29/02/2080,
to=01/06/2105 spans 25 = 20*1 + 5 years, so the claim promises 2 windows,
but the loop's first cursor advance calls datetime.replace(year=2100) on
Feb 29 and 2100 is not a leap year, so the program raises ValueError
instead of partitioning. -/
theorem partitioner_feb29_crash :
    parseDMY "29/02/2080" = some ⟨2080, 2, 29⟩
    ∧ parseDMY "01/06/2105" = some ⟨2105, 6, 1⟩
    ∧ dateLt ⟨2080, 2, 29⟩ ⟨2105, 6, 1⟩
    ∧ (2105 : Nat) - 2080 = 20 * 1 + 5
    ∧ splitIntervalsChecked ⟨2080, 2, 29⟩ ⟨2105, 6, 1⟩ = none := by
  refine ⟨by decide, by decide, by decide, by decide, ?_⟩
  rw [splitIntervalsChecked, dif_pos (by decide),
      show pyReplaceYear ⟨2080, 2, 29⟩ (2080 + 20) = none from by decide]

/-- Claim C4 amended: for every valid (from, to) pair with end > start
whose span is N*20 + r years with 0 < r ≤ 20 (years measured as the code
measures them, by the difference of the year fields), provided from's
day-of-month stays valid in every year the cursor can reach - which for a
real calendar date only excludes from = Feb 29 - the partition loop
succeeds (every datetime.replace call is valid) and yields exactly N+1
intervals, each spanning at most 20 years, each proper, contiguous (every
interval ends where the next begins), starting at from and ending at to,
pairwise ordered so that no two intervals share more than a boundary
date, and with union exactly the set of dates of [from, to].  When a
cursor advance is invalid (Feb 29 moved to a non-leap year) the loop
raises ValueError instead of partitioning. -/
theorem partitioner_multi_window (s e : PyDate) (N r : Nat)
    (hse : dateLt s e) (hspan : e.year - s.year = 20 * N + r)
    (hr1 : 0 < r) (hr2 : r ≤ 20)
    (hm1 : 1 ≤ s.month) (hm2 : s.month ≤ 12)
    (hd1 : 1 ≤ s.day) (hd2 : s.day ≤ daysInMonth s.year s.month)
    (hfeb : s.month = 2 → s.day ≤ 28) :
    splitIntervalsChecked s e = some (splitIntervals s e)
    ∧ (splitIntervals s e).length = N + 1
    ∧ (∀ p ∈ splitIntervals s e, p.2.year - p.1.year ≤ 20)
    ∧ (∀ p ∈ splitIntervals s e, dateLt p.1 p.2)
    ∧ List.Chain' (fun p q => p.2 = q.1) (splitIntervals s e)
    ∧ (splitIntervals s e).head?.map Prod.fst = some s
    ∧ ((splitIntervals s e).getLast?).map Prod.snd = some e
    ∧ List.Pairwise (fun p q => dateLe p.2 q.1) (splitIntervals s e)
    ∧ (∀ d : PyDate,
        (∃ p ∈ splitIntervals s e, dateLe p.1 d ∧ dateLe d p.2) ↔
          (dateLe s d ∧ dateLe d e)) :=
  ⟨splitIntervalsChecked_eq s e hm1 hm2 hd1 hd2 hfeb,
   splitIntervals_length N s e r hspan hr1 hr2,
   splitIntervals_year_bound s e,
   splitIntervals_proper s e hse,
   splitIntervals_chain s e,
   splitIntervals_head s e,
   splitIntervals_last s e,
   splitIntervals_pairwise s e,
   splitIntervals_union s e⟩

/-- Witness for the amended C4: the range 15/01/2000 to 02/06/2041 spans
41 = 20*2 + 1 years, every cursor advance is a valid date, and the
checked loop completes with exactly 3 windows. -/
theorem partitioner_multi_window_witness :
    dateLt ⟨2000, 1, 15⟩ ⟨2041, 6, 2⟩
    ∧ (2041 : Nat) - 2000 = 20 * 2 + 1
    ∧ (15 : Nat) ≤ daysInMonth 2000 1
    ∧ splitIntervalsChecked ⟨2000, 1, 15⟩ ⟨2041, 6, 2⟩ =
        some (splitIntervals ⟨2000, 1, 15⟩ ⟨2041, 6, 2⟩)
    ∧ (splitIntervals ⟨2000, 1, 15⟩ ⟨2041, 6, 2⟩).length = 2 + 1 :=
  ⟨by decide, by decide, by decide,
   (partitioner_multi_window ⟨2000, 1, 15⟩ ⟨2041, 6, 2⟩ 2 1
     (by decide) (by decide) (by decide) (by decide)
     (by decide) (by decide) (by decide) (by decide) (by decide)).1,
   (partitioner_multi_window ⟨2000, 1, 15⟩ ⟨2041, 6, 2⟩ 2 1
     (by decide) (by decide) (by decide) (by decide)
     (by decide) (by decide) (by decide) (by decide) (by decide)).2.1⟩

/-- Claim C5: for every valid (from, to) pair with end > start and to at
most 20 calendar years after from, the partitioner yields exactly one
interval, namely [from, to] itself. -/
theorem partitioner_single_window (s e : PyDate)
    (hse : dateLt s e) (hle : dateLe e (replaceYear s (s.year + 20))) :
    splitIntervals s e = [(s, e)] := by
  have hy : e.year ≤ s.year + 20 := by
    simp only [dateLe, replaceYear] at hle; omega
  rw [splitIntervals, dif_neg (by omega)]

/-- Witness for C5: the range 15/01/2000 to 02/03/2010 spans less than 20
years and yields the single window [from, to]. -/
theorem partitioner_single_window_witness :
    dateLt ⟨2000, 1, 15⟩ ⟨2010, 3, 2⟩
    ∧ dateLe ⟨2010, 3, 2⟩ (replaceYear ⟨2000, 1, 15⟩ (2000 + 20))
    ∧ splitIntervals ⟨2000, 1, 15⟩ ⟨2010, 3, 2⟩ = [(⟨2000, 1, 15⟩, ⟨2010, 3, 2⟩)] :=
  ⟨by decide, by decide,
   partitioner_single_window ⟨2000, 1, 15⟩ ⟨2010, 3, 2⟩ (by decide) (by decide)⟩

/-! ## Lemmas about the window pipeline -/

theorem processWindow_order (isLast : Bool) (rows : List TableRow) :
    processWindow isLast .ascending rows =
      Except.map (Option.map List.reverse) (processWindow isLast .descending rows) := by
  cases rows with
  | nil => rfl
  | cons r rest =>
      simp only [processWindow]
      cases h : processRows isLast (r :: rest) false [] with
      | error e => rfl
      | ok fr =>
          obtain ⟨flag, result⟩ := fr
          cases flag <;> simp [Except.map]

theorem processRows_append (isLast : Bool) (pre rest : List TableRow) :
    ∀ (f : Bool) (acc : List PricePoint),
      processRows isLast (pre ++ rest) f acc =
        match processRows isLast pre f acc with
        | .error e => .error e
        | .ok fa => processRows isLast rest fa.1 fa.2 := by
  induction pre with
  | nil => intro f acc; rfl
  | cons r pre ih =>
      intro f acc
      simp only [List.cons_append, processRows]
      by_cases hn : isNoResults r
      · rw [if_pos hn, if_pos hn]
        cases isLast with
        | false => simp only [Bool.false_eq_true, if_neg]; exact ih false acc
        | true => rfl
      · rw [if_neg hn, if_neg hn]
        cases parseRow r.realValues with
        | none => rfl
        | some p => exact ih true (acc ++ [p])

theorem processRows_all_noResults (l : List TableRow)
    (h : ∀ r ∈ l, isNoResults r = true) :
    ∀ acc, processRows false l false acc = .ok (false, acc) := by
  induction l with
  | nil => intro acc; rfl
  | cons r rest ih =>
      intro acc
      have hr : isNoResults r = true := h r (List.mem_cons_self r rest)
      simp only [processRows, hr, if_pos, if_neg]
      exact ih (fun q hq => h q (List.mem_cons_of_mem r hq)) acc

theorem runWindows_append (order : SortOrder) (limit : Nat) (xs ys : List HttpResponse) :
    ∀ c, runWindows order limit c (xs ++ ys) =
      match runWindows order limit c xs with
      | .error e => .error e
      | .ok f1 =>
          match runWindows order limit (c + xs.length) ys with
          | .error e => .error e
          | .ok f2 => .ok (f1 ++ f2) := by
  induction xs with
  | nil =>
      intro c
      simp only [List.nil_append, List.length_nil, Nat.add_zero, runWindows]
      cases runWindows order limit c ys with
      | error e => rfl
      | ok f2 => rfl
  | cons x xs ih =>
      intro c
      have hlen : c + 1 + xs.length = c + (xs.length + 1) := by omega
      by_cases hs : x.status_code ≠ 200
      · simp only [List.cons_append, runWindows, if_pos hs]
      · cases hx : x.text with
        | empty =>
            simp only [List.cons_append, runWindows, if_neg hs, hx, List.length_cons]
            rw [show xs.append ys = xs ++ ys from rfl, ih (c + 1), hlen]
        | html rows =>
            simp only [List.cons_append, runWindows, if_neg hs, hx, List.length_cons]
            cases processWindow (c + 1 == limit) order rows with
            | error e => rfl
            | ok contribution =>
                dsimp only
                rw [show xs.append ys = xs ++ ys from rfl, ih (c + 1), hlen]
                cases runWindows order limit (c + 1) xs with
                | error e => cases contribution <;> rfl
                | ok f1 =>
                    cases runWindows order limit (c + (xs.length + 1)) ys with
                    | error e => cases contribution <;> rfl
                    | ok f2 => cases contribution <;> simp

theorem runWindows_bad_status (order : SortOrder) (limit : Nat)
    (r : HttpResponse) (hr : r.status_code ≠ 200) :
    ∀ (rs : List HttpResponse) (c : Nat), r ∈ rs →
      ∀ v, runWindows order limit c rs ≠ .ok v := by
  intro rs
  induction rs with
  | nil => intro c hmem; simp at hmem
  | cons x rest ih =>
      intro c hmem v
      rcases List.mem_cons.mp hmem with h1 | h1
      · subst h1
        simp only [runWindows, if_pos hr]
        intro hcon; cases hcon
      · simp only [runWindows]
        by_cases hs : x.status_code ≠ 200
        · rw [if_pos hs]; intro hcon; cases hcon
        · rw [if_neg hs]
          cases x.text with
          | empty => exact ih (c + 1) h1 v
          | html rows =>
              cases hpw : processWindow (c + 1 == limit) order rows with
              | error e => simp [hpw]
              | ok contribution =>
                  cases hrec : runWindows order limit (c + 1) rest with
                  | error e => simp [hpw, hrec]
                  | ok finals => exact absurd hrec (ih (c + 1) h1 finals)

theorem runWindows_empty_bodies (order : SortOrder) (limit : Nat) :
    ∀ (rs : List HttpResponse) (c : Nat),
      (∀ r ∈ rs, r.status_code = 200 ∧ r.text = .empty) →
      runWindows order limit c rs = .ok [] := by
  intro rs
  induction rs with
  | nil => intro c h; rfl
  | cons x rest ih =>
      intro c h
      have hx := h x (List.mem_cons_self x rest)
      simp only [runWindows, hx.1, hx.2]
      exact ih (c + 1) (fun q hq => h q (List.mem_cons_of_mem x hq))

theorem processWindow_eq (isLast : Bool) (order : SortOrder)
    (rows : List TableRow) (hne : rows ≠ []) :
    processWindow isLast order rows =
      match processRows isLast rows false [] with
      | .error e => .error e
      | .ok fa =>
          if fa.1 then
            .ok (some (if order = .ascending then fa.2.reverse else fa.2))
          else .ok none := by
  cases rows with
  | nil => exact absurd rfl hne
  | cons r rest =>
      simp only [processWindow]
      cases processRows isLast (r :: rest) false [] with
      | error e => rfl
      | ok fa => rfl

theorem runWindows_single (order : SortOrder) (resp : HttpResponse) :
    runWindows order 1 0 [resp] =
      if resp.status_code ≠ 200 then .error (.connectionError resp.status_code)
      else
        match resp.text with
        | .empty => .ok []
        | .html rows =>
            match processWindow true order rows with
            | .error e => .error e
            | .ok (some w) => .ok [w]
            | .ok none => .ok [] := by
  by_cases hs : resp.status_code ≠ 200
  · simp only [runWindows, if_pos hs]
  · simp only [runWindows, if_neg hs]
    cases resp.text with
    | empty => rfl
    | html rows =>
        dsimp only
        cases hpw : processWindow true order rows with
        | error e =>
            rw [show (0 + 1 == 1) = true from rfl, hpw]
        | ok contribution =>
            rw [show (0 + 1 == 1) = true from rfl, hpw]
            cases contribution <;> rfl

/-! ## Claim C2 -/

/-- Counterexample to claim C2 as stated: the identical two-window
historical call in tabular mode returns the same series for
order=ascending and order=descending (each window is a single row, so the
per-window reversals are invisible while a global reversal would swap the
two records), hence the ascending output is not the reverse of the
descending output. -/
theorem multi_window_not_reversed :
    get_historical_core false "NAME" .ascending rs2 = .ok (.tableOut [pp1, pp2])
    ∧ get_historical_core false "NAME" .descending rs2 = .ok (.tableOut [pp1, pp2])
    ∧ [pp1, pp2] ≠ List.reverse [pp1, pp2] := by
  refine ⟨by decide, by decide, by decide⟩

/-- Claim C2 amended: for the recent fetch, and for a historical fetch
whose range yields a single window, the ascending call returns exactly
the reverse of the descending call (same error otherwise); for
multi-window historical fetches each window is reversed independently
with the window order preserved, so the outputs need not be global
reverses of each other. -/
theorem order_reversal (b : Bool) (name : String) (resp : HttpResponse) :
    get_recent_core b name .ascending resp =
      Except.map revOutput (get_recent_core b name .descending resp)
    ∧ get_historical_core b name .ascending [resp] =
      Except.map revOutput (get_historical_core b name .descending [resp]) := by
  constructor
  · unfold get_recent_core
    by_cases hs : resp.status_code ≠ 200
    · rw [if_pos hs, if_pos hs]; rfl
    · rw [if_neg hs, if_neg hs]
      cases resp.text with
      | empty => rfl
      | html rows =>
          cases rows with
          | nil => rfl
          | cons r rest =>
              cases hrr : recentRows (r :: rest) [] with
              | error e => simp [hrr, Except.map]
              | ok result => cases b <;> simp [hrr, Except.map, revOutput]
  · unfold get_historical_core
    rw [show ([resp] : List HttpResponse).length = 1 from rfl,
      runWindows_single, runWindows_single]
    by_cases hs : resp.status_code ≠ 200
    · rw [if_pos hs, if_pos hs]; rfl
    · rw [if_neg hs, if_neg hs]
      cases resp.text with
      | empty => cases b <;> rfl
      | html rows =>
          dsimp only
          rw [processWindow_order]
          cases hpw : processWindow true .descending rows with
          | error e => simp [Except.map]
          | ok contribution =>
              cases contribution with
              | none => cases b <;> simp [Except.map]
              | some w => cases b <;> simp [Except.map, revOutput]

/-! ## Claim C1 -/

/-- Counterexample to claim C1 as stated: with two successful windows, the
as_json output carries only the first window's series [pp1] (line 605
returns json.dumps(final[0])), which differs from the concatenation
[pp1, pp2] that the tabular mode returns. -/
theorem json_mode_drops_later_windows :
    get_historical_core true "NAME" .descending rs2 = .ok (.jsonOut "NAME" [pp1])
    ∧ get_historical_core false "NAME" .descending rs2 = .ok (.tableOut [pp1, pp2])
    ∧ Output.jsonOut "NAME" [pp1] ≠ Output.jsonOut "NAME" [pp1, pp2] := by
  refine ⟨by decide, by decide, by decide⟩

/-- Claim C1 amended: each window's series gets the order adjustment
applied independently (ascending reverses exactly the per-window series of
the descending run), and the contributing windows' series are gathered in
window order; the tabular output is their concatenation, with no
contributing window dropped, while the as_json output carries only the
first contributing window's series. -/
theorem window_merge (order : SortOrder) (name : String) (rs : List HttpResponse)
    (w : List PricePoint) (ws : List (List PricePoint))
    (h : runWindows order rs.length 0 rs = .ok (w :: ws)) :
    get_historical_core false name order rs = .ok (.tableOut (w :: ws).flatten)
    ∧ get_historical_core true name order rs = .ok (.jsonOut name w)
    ∧ (∀ (isLast : Bool) (rows : List TableRow),
        processWindow isLast .ascending rows =
          Except.map (Option.map List.reverse) (processWindow isLast .descending rows)) := by
  refine ⟨?_, ?_, fun isLast rows => processWindow_order isLast rows⟩ <;>
    · unfold get_historical_core
      rw [h]
      rfl

/-- Witness for the amended C1: a concrete two-window run where the
window-level result list is [[pp1], [pp2]], the tabular output is the
concatenation and the as_json output is the first window. -/
theorem window_merge_witness :
    runWindows .descending rs2.length 0 rs2 = .ok [[pp1], [pp2]]
    ∧ get_historical_core false "NAME" .descending rs2 =
        .ok (.tableOut [[pp1], [pp2]].flatten)
    ∧ get_historical_core true "NAME" .descending rs2 = .ok (.jsonOut "NAME" [pp1]) :=
  ⟨by decide,
   (window_merge .descending "NAME" rs2 [pp1] [[pp2]] (by decide)).1,
   (window_merge .descending "NAME" rs2 [pp1] [[pp2]] (by decide)).2.1⟩

/-! ## Claim C6 -/

/-- Counterexample to claim C6 as stated: in a window that is not the
last, a "No results found" row followed by a data row does not make the
window contribute no records - the data row resets data_flag to True, so
the window contributes that record. -/
theorem no_results_then_data_contributes :
    processWindow false .descending [nrow, drow1] = .ok (some [pp1])
    ∧ [pp1] ≠ ([] : List PricePoint) := by
  refine ⟨by decide, by decide⟩

/-- Claim C6 amended: in a non-last window, a "No results found" row
leaves the window contributing no records provided no data row follows it
in that window (in particular when it is the window's only row, the shape
the provider actually sends), and processing continues silently; in the
last window, a "No results found" row makes the whole call raise the
no-historical-data IndexError immediately, regardless of the data
accumulated from earlier windows. -/
theorem no_results_row_handling :
    (∀ (order : SortOrder) (pre suf : List TableRow) (r0 : TableRow)
        (f : Bool) (acc : List PricePoint),
        isNoResults r0 = true →
        (∀ r ∈ suf, isNoResults r = true) →
        processRows false pre false [] = .ok (f, acc) →
        processWindow false order (pre ++ r0 :: suf) = .ok none)
    ∧ (∀ (b : Bool) (name : String) (order : SortOrder)
        (rsPre : List HttpResponse) (finals : List (List PricePoint))
        (pre suf : List TableRow) (r0 : TableRow)
        (f : Bool) (acc : List PricePoint),
        isNoResults r0 = true →
        runWindows order (rsPre.length + 1) 0 rsPre = .ok finals →
        processRows true pre false [] = .ok (f, acc) →
        get_historical_core b name order
          (rsPre ++ [⟨200, .html (pre ++ r0 :: suf)⟩]) = .error .noHistoricalData) := by
  constructor
  · intro order pre suf r0 f acc h0 hsuf hpre
    have hne : pre ++ r0 :: suf ≠ [] := by simp
    rw [processWindow_eq false order _ hne,
        processRows_append false pre (r0 :: suf) false [], hpre]
    dsimp only
    simp only [processRows, h0, if_true, Bool.false_eq_true, if_false]
    rw [processRows_all_noResults suf hsuf acc]
    rfl
  · intro b name order rsPre finals pre suf r0 f acc h0 hprefix hpre
    unfold get_historical_core
    rw [show (rsPre ++ [(⟨200, .html (pre ++ r0 :: suf)⟩ : HttpResponse)]).length
        = rsPre.length + 1 by simp]
    rw [runWindows_append order (rsPre.length + 1) rsPre
        [⟨200, .html (pre ++ r0 :: suf)⟩] 0, hprefix]
    simp only [runWindows]
    rw [if_neg (show ¬(200 : Nat) ≠ 200 by simp)]
    rw [show (0 + rsPre.length + 1 == rsPre.length + 1) = true by simp]
    rw [processWindow_eq true order _ (by simp),
        processRows_append true pre (r0 :: suf) false [], hpre]
    dsimp only
    simp only [processRows, h0, if_true]

/-- Witness for the amended C6: a sole "No results found" row makes a
non-last window contribute nothing, and makes a last (only) window raise
the no-historical-data error. -/
theorem no_results_row_handling_witness :
    isNoResults nrow = true
    ∧ processWindow false .descending [nrow] = .ok none
    ∧ get_historical_core false "NAME" .descending [⟨200, .html [nrow]⟩] =
        .error .noHistoricalData :=
  ⟨by decide,
   no_results_row_handling.1 .descending [] [] nrow false [] (by decide)
     (by intro r hr; cases hr) rfl,
   no_results_row_handling.2 false "NAME" .descending [] [] [] [] nrow false []
     (by decide) rfl rfl⟩

/-! ## Claim C7 -/

/-- Claim C7: a non-200 HTTP status in any window aborts the whole
operation with a ConnectionError carrying that status code and no series
is returned.  Part one: if every window before the failing one processes
without raising, the historical call raises the ConnectionError of the
first failing window's status.  Part two: the recent call raises the
ConnectionError of its single response's status.  Part three: whenever
any window of a historical call has a non-200 status, the call returns no
series at all (it raises, with no partial-results fallback). -/
theorem http_error_aborts :
    (∀ (b : Bool) (name : String) (order : SortOrder)
        (xs ys : List HttpResponse) (r : HttpResponse) (f : List (List PricePoint)),
        r.status_code ≠ 200 →
        runWindows order (xs ++ r :: ys).length 0 xs = .ok f →
        get_historical_core b name order (xs ++ r :: ys) =
          .error (.connectionError r.status_code))
    ∧ (∀ (b : Bool) (name : String) (order : SortOrder) (r : HttpResponse),
        r.status_code ≠ 200 →
        get_recent_core b name order r = .error (.connectionError r.status_code))
    ∧ (∀ (b : Bool) (name : String) (order : SortOrder)
        (rs : List HttpResponse) (r : HttpResponse),
        r ∈ rs → r.status_code ≠ 200 →
        ∀ out, get_historical_core b name order rs ≠ .ok out) := by
  refine ⟨?_, ?_, ?_⟩
  · intro b name order xs ys r f hr hpre
    unfold get_historical_core
    rw [runWindows_append order ((xs ++ r :: ys).length) xs (r :: ys) 0, hpre]
    dsimp only
    simp only [runWindows, if_pos hr]
  · intro b name order r hr
    unfold get_recent_core
    rw [if_pos hr]
  · intro b name order rs r hmem hr out
    unfold get_historical_core
    cases hrw : runWindows order rs.length 0 rs with
    | error e => simp [hrw]
    | ok final =>
        exact absurd hrw (runWindows_bad_status order rs.length r hr rs 0 hmem final)

/-- Witness for C7: an HTTP 500 on the only window of the historical
fetch and on the recent fetch raises the ConnectionError carrying 500. -/
theorem http_error_aborts_witness :
    (500 : Nat) ≠ 200
    ∧ get_historical_core false "NAME" .descending [⟨500, .empty⟩] =
        .error (.connectionError 500)
    ∧ get_recent_core false "NAME" .descending ⟨500, .empty⟩ =
        .error (.connectionError 500) :=
  ⟨by decide,
   http_error_aborts.1 false "NAME" .descending [] [] ⟨500, .empty⟩ [] (by decide) rfl,
   http_error_aborts.2.1 false "NAME" .descending ⟨500, .empty⟩ (by decide)⟩

/-! ## Claim C10 -/

/-- Claim C10: when every window's response is HTTP 200 with an empty
body, every window is skipped, the final list stays empty and the call
raises instead of returning an empty series: the IndexError of final[0]
when as_json=True, and the pandas error of concatenating an empty list
when as_json=False - both outside the documented error taxonomy. -/
theorem all_windows_empty_raises (name : String) (order : SortOrder)
    (rs : List HttpResponse) (hne : rs ≠ [])
    (h : ∀ r ∈ rs, r.status_code = 200 ∧ r.text = .empty) :
    get_historical_core true name order rs = .error .emptyFinalIndex
    ∧ get_historical_core false name order rs = .error .emptyConcat := by
  have hrw := runWindows_empty_bodies order rs.length rs 0 h
  constructor <;> (unfold get_historical_core; rw [hrw]; rfl)

/-- Witness for C10: a single 200-with-empty-body window raises in both
output modes. -/
theorem all_windows_empty_raises_witness :
    ([⟨200, .empty⟩] : List HttpResponse) ≠ []
    ∧ get_historical_core true "NAME" .descending [⟨200, .empty⟩] =
        .error .emptyFinalIndex
    ∧ get_historical_core false "NAME" .descending [⟨200, .empty⟩] =
        .error .emptyConcat :=
  ⟨by decide,
   (all_windows_empty_raises "NAME" .descending [⟨200, .empty⟩]
     (by decide) (by decide)).1,
   (all_windows_empty_raises "NAME" .descending [⟨200, .empty⟩]
     (by decide) (by decide)).2⟩

/-! ## Claim C3 -/

/-- Claim C3 fails on the code: resolution is case-insensitive but not
accent-insensitive in the selection step.  The membership test of line
506 strips accents from both sides, but the row selection of lines
509-511 compares the lowercased names without stripping accents, and the
pandas idxmax of an all-False boolean column falls back to the first row
of the country.  Hence the accented spelling selects the accented row
while the accent-free spelling of the same name selects the country's
first row, a different instrument. -/
theorem resolve_accent_fallback_bug :
    resolve ["france"] catalogEx "Société X" "France" = .ok rowSX
    ∧ resolve ["france"] catalogEx "SOCIETE X" "FRANCE" = .ok rowOC
    ∧ rowSX ≠ rowOC := by
  refine ⟨by decide, by decide, by decide⟩

/-! ## Claim C9 -/

/-- Claim C9: a data row's cells are read in the order date (Unix
timestamp), close, open, high, low; the timestamp is converted to a
calendar date, commas are stripped before the floating-point parse, and
each value lands in its correctly named field of the record (the second
cell becomes close, the third open, the fourth high, the fifth low). -/
theorem row_parse_fields (ts v1 v2 v3 v4 : String) (rest : List String)
    (t : Nat) (q1 q2 q3 q4 : ℚ)
    (h0 : parsePyInt ts = some t)
    (h1 : parseFloat (stripCommas v1) = some q1)
    (h2 : parseFloat (stripCommas v2) = some q2)
    (h3 : parseFloat (stripCommas v3) = some q3)
    (h4 : parseFloat (stripCommas v4) = some q4) :
    parseRow (ts :: v1 :: v2 :: v3 :: v4 :: rest) =
      some ⟨civilFromDays (t / 86400), q2, q3, q4, q1⟩ := by
  simp only [parseRow, h0, h1, h2, h3, h4]

/-- Witness for C9: a concrete row with a thousands separator in the
close cell; the close field receives the comma-stripped second cell. -/
theorem row_parse_fields_witness :
    parsePyInt "86400" = some 86400
    ∧ parseFloat (stripCommas "1,234.5") = some (mkRat 12345 10)
    ∧ parseRow ["86400", "1,234.5", "10", "11.5", "9"] =
        some ⟨civilFromDays (86400 / 86400), 10, mkRat 115 10, 9, mkRat 12345 10⟩ :=
  ⟨by decide, by decide,
   row_parse_fields "86400" "1,234.5" "10" "11.5" "9" [] 86400
     (mkRat 12345 10) 10 (mkRat 115 10) 9
     (by decide) (by decide) (by decide) (by decide) (by decide)⟩

/-! ## Claim C8 -/

/-- Claim C8: every validation or lookup failure (invalid certificate,
country, order, interval or date argument, malformed dd/mm/yyyy string,
from_date not before to_date, unknown country or certificate) is decided
before any request is issued: a pre-network error is the same whatever
the provider would have answered, so no HTTP POST precedes it. -/
theorem validation_before_network :
    (∀ (certificate : String) (country : Option String) (fd td : String)
        (aj : Bool) (ord iv : String) (countries : List String)
        (catalog : List CatalogRow) (p1 p2 : Nat → HttpResponse) (e : Err),
        Err.isPreNetwork e = true →
        get_certificate_historical_data certificate country fd td aj ord iv
          countries catalog p1 = .error e →
        get_certificate_historical_data certificate country fd td aj ord iv
          countries catalog p2 = .error e)
    ∧ (∀ (certificate : String) (country : Option String)
        (aj : Bool) (ord iv : String) (countries : List String)
        (catalog : List CatalogRow) (r1 r2 : HttpResponse) (e : Err),
        Err.isPreNetwork e = true →
        get_certificate_recent_data certificate country aj ord iv
          countries catalog r1 = .error e →
        get_certificate_recent_data certificate country aj ord iv
          countries catalog r2 = .error e) := by
  constructor
  · intro certificate country fd td aj ord iv countries catalog p1 p2 e hpre h
    unfold get_certificate_historical_data at h ⊢
    cases hv : validateHistoricalArgs certificate country ord iv fd td with
    | error e2 => simp only [hv] at h ⊢; exact h
    | ok trip =>
        obtain ⟨ctry, start1, end1⟩ := trip
        simp only [hv] at h ⊢
        cases hrv : resolve countries catalog certificate ctry with
        | error e2 => simp only [hrv] at h ⊢; exact h
        | ok row =>
            simp only [hrv] at h ⊢
            cases hc : get_historical_core aj row.name (orderOf ord)
                ((List.range (splitIntervals start1 end1).length).map p1) with
            | error fe =>
                rw [hc] at h
                simp only [] at h
                injection h with h2
                rw [← h2] at hpre
                simp [Err.isPreNetwork] at hpre
            | ok out =>
                rw [hc] at h
                simp at h
  · intro certificate country aj ord iv countries catalog r1 r2 e hpre h
    unfold get_certificate_recent_data at h ⊢
    cases hv : validateRecentArgs certificate country ord iv with
    | error e2 => simp only [hv] at h ⊢; exact h
    | ok ctry =>
        simp only [hv] at h ⊢
        cases hrv : resolve countries catalog certificate ctry with
        | error e2 => simp only [hrv] at h ⊢; exact h
        | ok row =>
            simp only [hrv] at h ⊢
            cases hc : get_recent_core aj row.name (orderOf ord) r1 with
            | error fe =>
                rw [hc] at h
                simp only [] at h
                injection h with h2
                rw [← h2] at hpre
                simp [Err.isPreNetwork] at hpre
            | ok out =>
                rw [hc] at h
                simp at h

/-- Witness for C8: a call with the invalid order string "sideways" fails
with the order validation error whatever the provider answers - one
provider always answers 200 with an empty body, the other always 500. -/
theorem validation_before_network_witness :
    Err.isPreNetwork (.validation .err0003) = true
    ∧ get_certificate_historical_data "CERT X" (some "france") "01/01/2020"
        "01/01/2021" false "sideways" "Daily" [] []
        (fun _ => ⟨200, .empty⟩) = .error (.validation .err0003)
    ∧ get_certificate_historical_data "CERT X" (some "france") "01/01/2020"
        "01/01/2021" false "sideways" "Daily" [] []
        (fun _ => ⟨500, .empty⟩) = .error (.validation .err0003)
    ∧ get_certificate_recent_data "CERT X" (some "france") false "sideways"
        "Daily" [] [] ⟨500, .empty⟩ = .error (.validation .err0003) :=
  ⟨rfl, by decide,
   validation_before_network.1 "CERT X" (some "france") "01/01/2020" "01/01/2021"
     false "sideways" "Daily" [] [] (fun _ => ⟨200, .empty⟩) (fun _ => ⟨500, .empty⟩)
     (.validation .err0003) rfl (by decide),
   validation_before_network.2 "CERT X" (some "france") false "sideways" "Daily"
     [] [] ⟨200, .empty⟩ ⟨500, .empty⟩ (.validation .err0003) rfl (by decide)⟩

end Investpy
